import Mathlib

/-!
Shallow embedding of `server.go` from the `hypnoglow/x` repository:
a lifecycle wrapper around an HTTP engine with graceful shutdown.

The Go source coordinates three concurrent actors through a single
capacity-1 `chan os.Signal` guarded by a `sync.Once`.  The embedding
models the channel explicitly (closed flag plus buffered values),
the once-guard as a boolean, and each method as a state transformer.
Go channel operations that can panic (`close` of a closed channel,
send on a closed channel) return `Except GoPanic`.  External
collaborators — the HTTP engine result of `ListenAndServe`, the
result of `origin.Shutdown(ctx)` — enter as explicit parameters, as
do OS interrupt deliveries.  Two ghost fields instrument the state
for specification purposes only: `closeCount` counts how many times
`close` actually executed, and `drainCalls` records each engine
drain request together with the timeout passed and whether the stop
channel was already closed at that moment.
-/

namespace GracefulServer

/-- Runtime faults of the Go channel primitives used by the source. -/
inductive GoPanic where
  | closeOfClosedChannel
  | sendOnClosedChannel
deriving DecidableEq, Repr

/-- State of the `stopSignals` channel (`make(chan os.Signal, 1)`):
whether it has been closed, and the buffered signal values. -/
structure ChanState where
  closed : Bool
  buf : List Unit
deriving DecidableEq, Repr

/-- The buffer capacity the source requests: `make(chan os.Signal, 1)`. -/
def chanCapacity : Nat := 1

/-- A freshly made channel: open, empty buffer. -/
def freshChan : ChanState := ⟨false, []⟩

/-- Go receive `<-ch`: a buffered value is consumed first; an empty
closed channel yields the zero value at once; an empty open channel
blocks, rendered as `none`. -/
def chanRecv (c : ChanState) : Option (ChanState × Option Unit) :=
  match c.buf with
  | v :: rest => some ({ c with buf := rest }, some v)
  | [] => if c.closed then some (c, none) else none

/-- Go `close(ch)`: panics when the channel is already closed. -/
def chanClose (c : ChanState) : Except GoPanic ChanState :=
  if c.closed then .error .closeOfClosedChannel
  else .ok { c with closed := true }

/-- The runtime delivery of a signal registered via `signal.Notify`:
a non-blocking send; the value is dropped when the buffer is full;
a send on a closed channel panics. -/
def chanSignalSend (c : ChanState) : Except GoPanic ChanState :=
  if c.closed then .error .sendOnClosedChannel
  else if c.buf.length < chanCapacity then .ok { c with buf := c.buf ++ [()] }
  else .ok c

/-- The wrapped `*http.Server` engine: an address and a handler,
both opaque to the lifecycle controller (the handler is identified
by an abstract tag). -/
structure HttpServer where
  addr : String
  handlerId : Nat
deriving DecidableEq, Repr

/-- `server.Server` together with the observable effects of its
methods.  `log` is the optional attached sink carrying the lines
written so far (`none` models a nil `io.Writer`).  `onceDone`
models the `sync.Once` `onceCloser` having fired.
`signalRegistered` tracks the `signal.Notify` registration.
`closeCount` and `drainCalls` are ghost instrumentation described
in the file header. -/
structure Server where
  origin : HttpServer
  log : Option (List String)
  stopSignals : ChanState
  onceDone : Bool
  signalRegistered : Bool
  closeCount : Nat
  drainCalls : List (Nat × Bool)
deriving DecidableEq, Repr

/-- `Option func(*Server)`: a server option. -/
def ServerOption : Type := Server → Server

/-- `Log(log io.Writer)`: the option that sets the server logger.
The writer is modelled by its current contents. -/
def Log (w : List String) : ServerOption := fun s => { s with log := some w }

/-- Application of an option list: `for _, opt := range opts { opt(s) }`. -/
def applyOpts (opts : List ServerOption) (s : Server) : Server :=
  opts.foldl (fun t o => o t) s

/-- `New(addr, handler, opts...)`: makes a capacity-1 signal channel,
registers interrupt interest, builds the engine from address and
handler, applies the options.  Serving is not started. -/
def New (addr : String) (handlerId : Nat) (opts : List ServerOption) : Server :=
  applyOpts opts
    { origin := ⟨addr, handlerId⟩
      log := none
      stopSignals := freshChan
      onceDone := false
      signalRegistered := true
      closeCount := 0
      drainCalls := [] }

/-- `Wrap(srv, opts...)`: same as `New` but wraps a pre-configured
engine instance. -/
def Wrap (srv : HttpServer) (opts : List ServerOption) : Server :=
  applyOpts opts
    { origin := srv
      log := none
      stopSignals := freshChan
      onceDone := false
      signalRegistered := true
      closeCount := 0
      drainCalls := [] }

/-- `logMessage`: no-op when no sink is attached, otherwise writes
the formatted line to the sink. -/
def logMessage (s : Server) (msg : String) : Server :=
  match s.log with
  | none => s
  | some lines => { s with log := some (lines ++ [msg]) }

/-- `Stop()`: inside the `sync.Once`, unregisters signal delivery
(`signal.Stop`) and closes the channel; outside it, does nothing. -/
def Server.Stop (s : Server) : Except GoPanic Server :=
  if s.onceDone then .ok s
  else
    match chanClose s.stopSignals with
    | .error p => .error p
    | .ok c =>
        .ok { s with
          onceDone := true
          signalRegistered := false
          stopSignals := c
          closeCount := s.closeCount + 1 }

/-- `Wait()`: `<-s.stopSignals`.  `none` means the caller blocks. -/
def Server.Wait (s : Server) : Option Server :=
  match chanRecv s.stopSignals with
  | none => none
  | some (c, _) => some { s with stopSignals := c }

/-- Result of `origin.ListenAndServe()`, which always returns a
non-nil error: either `http.ErrServerClosed` or some other error. -/
inductive ListenResult where
  | errServerClosed
  | otherErr (msg : String)
deriving DecidableEq, Repr

/-- `Start()`: logs the listening line, blocks in
`ListenAndServe` until it returns `res`; on any error other than
`http.ErrServerClosed` logs it and calls `Stop()`; otherwise logs
closure.  `Start` returns no value to its caller. -/
def Server.Start (s : Server) (res : ListenResult) : Except GoPanic Server :=
  let s1 := logMessage s ("Start listening @ " ++ s.origin.addr)
  match res with
  | .otherErr msg => (logMessage s1 msg).Stop
  | .errServerClosed => .ok (logMessage s1 "Server closed.")

/-- `gracefulTimeout = time.Second * 10`, counted in seconds. -/
def gracefulTimeout : Nat := 10

/-- Result of `origin.Shutdown(ctx)`: `done` when the drain finished
in time, `failed` when the grace period elapsed and connections were
forcibly closed. -/
inductive DrainResult where
  | done
  | failed (msg : String)
deriving DecidableEq, Repr

/-- `Shutdown()`: logs, calls `Stop()` (idempotent), asks the engine
to drain within `gracefulTimeout`, and logs the outcome.  The drain
request is recorded in the ghost trace together with the timeout and
whether the stop channel was closed at the moment of the request.
`Shutdown` returns no error value to its caller. -/
def Server.Shutdown (s : Server) (res : DrainResult) : Except GoPanic Server :=
  let s1 := logMessage s "Shutdown server..."
  match s1.Stop with
  | .error p => .error p
  | .ok s2 =>
      let s3 := { s2 with
        drainCalls := s2.drainCalls ++ [(gracefulTimeout, s2.stopSignals.closed)] }
      match res with
      | .failed msg =>
          .ok (logMessage s3 ("Server graceful shutdown failed: " ++ msg ++ "\n"))
      | .done => .ok (logMessage s3 "Server gracefully shut down.")

/-- Delivery of an OS interrupt to the controller: routed into the
channel while the `signal.Notify` registration is active, dropped
after `signal.Stop`. -/
def deliverInterrupt (s : Server) : Except GoPanic Server :=
  if s.signalRegistered then
    match chanSignalSend s.stopSignals with
    | .error p => .error p
    | .ok c => .ok { s with stopSignals := c }
  else .ok s

/-- The reachable-state invariant tying the once-guard to the
channel and the ghost close counter: the channel is closed exactly
when the once fired, the close ran exactly once in that case, and
the signal registration is active exactly until then. -/
def StopInv (s : Server) : Prop :=
  s.stopSignals.closed = s.onceDone ∧
  s.closeCount = (if s.onceDone then 1 else 0) ∧
  s.signalRegistered = !s.onceDone

instance (s : Server) : Decidable (StopInv s) :=
  inferInstanceAs (Decidable (_ ∧ _ ∧ _))

/-- The callers that reach `Stop()` in the source: a direct call, the
failure path of `Start()`, and `Shutdown()`. -/
inductive StopCaller where
  | direct
  | viaStartFailure (msg : String)
  | viaShutdown (res : DrainResult)
deriving DecidableEq, Repr

/-- Runs one `Stop()`-reaching call. -/
def runStopCaller (s : Server) : StopCaller → Except GoPanic Server
  | .direct => s.Stop
  | .viaStartFailure msg => s.Start (.otherErr msg)
  | .viaShutdown res => s.Shutdown res

/-- Runs a sequence of `Stop()`-reaching calls; the `sync.Once`
serialises the critical sections, so any concurrent interleaving is
some such sequence. -/
def runStopCallers (s : Server) : List StopCaller → Except GoPanic Server
  | [] => .ok s
  | c :: cs =>
      match runStopCaller s c with
      | .error p => .error p
      | .ok s1 => runStopCallers s1 cs

/-- The non-log observable part of a server state, used to compare
behaviour with and without an attached sink. -/
structure ServerCore where
  origin : HttpServer
  stopSignals : ChanState
  onceDone : Bool
  signalRegistered : Bool
  closeCount : Nat
  drainCalls : List (Nat × Bool)
deriving DecidableEq, Repr

/-- Projection dropping the log sink. -/
def Server.core (s : Server) : ServerCore :=
  ⟨s.origin, s.stopSignals, s.onceDone, s.signalRegistered, s.closeCount, s.drainCalls⟩

/-- A freshly constructed test controller. -/
def newTestServer : Server := New "127.0.0.1:8080" 0 []

/-- The fresh controller after one OS interrupt was delivered and
buffered (no `Stop()` has occurred). -/
def bufferedServer : Server :=
  { origin := ⟨"127.0.0.1:8080", 0⟩
    log := none
    stopSignals := ⟨false, [()]⟩
    onceDone := false
    signalRegistered := true
    closeCount := 0
    drainCalls := [] }

/-- A controller whose stop channel has been closed by `Stop()`. -/
def closedServer : Server :=
  { origin := ⟨"127.0.0.1:8080", 0⟩
    log := none
    stopSignals := ⟨true, []⟩
    onceDone := true
    signalRegistered := false
    closeCount := 1
    drainCalls := [] }

/-! Helper lemmas about the primitive operations. -/

theorem logMessage_stopSignals (s : Server) (m : String) :
    (logMessage s m).stopSignals = s.stopSignals := by
  cases h : s.log <;> simp [logMessage, h]

theorem logMessage_onceDone (s : Server) (m : String) :
    (logMessage s m).onceDone = s.onceDone := by
  cases h : s.log <;> simp [logMessage, h]

theorem logMessage_signalRegistered (s : Server) (m : String) :
    (logMessage s m).signalRegistered = s.signalRegistered := by
  cases h : s.log <;> simp [logMessage, h]

theorem logMessage_closeCount (s : Server) (m : String) :
    (logMessage s m).closeCount = s.closeCount := by
  cases h : s.log <;> simp [logMessage, h]

theorem logMessage_drainCalls (s : Server) (m : String) :
    (logMessage s m).drainCalls = s.drainCalls := by
  cases h : s.log <;> simp [logMessage, h]

theorem logMessage_origin (s : Server) (m : String) :
    (logMessage s m).origin = s.origin := by
  cases h : s.log <;> simp [logMessage, h]

theorem logMessage_core (s : Server) (m : String) :
    (logMessage s m).core = s.core := by
  cases h : s.log <;> simp [logMessage, h, Server.core]

theorem logMessage_none (s : Server) (m : String) (h : s.log = none) :
    logMessage s m = s := by
  simp [logMessage, h]

theorem logMessage_some (s : Server) (L : List String) (m : String) (h : s.log = some L) :
    logMessage s m = { s with log := some (L ++ [m]) } := by
  simp [logMessage, h]

theorem logMessage_StopInv (s : Server) (m : String) (h : StopInv s) :
    StopInv (logMessage s m) := by
  obtain ⟨h1, h2, h3⟩ := h
  refine ⟨?_, ?_, ?_⟩ <;>
    simp [logMessage_stopSignals, logMessage_onceDone, logMessage_signalRegistered,
      logMessage_closeCount, h1, h2, h3]

theorem chanRecv_isSome_of_closed (c : ChanState) (h : c.closed = true) :
    (chanRecv c).isSome = true := by
  cases hb : c.buf <;> simp [chanRecv, hb, h]

/-- Characterisation of when a receive on the stop channel completes
rather than blocks. -/
theorem chanRecv_isSome_iff (c : ChanState) :
    (chanRecv c).isSome = true ↔ (c.closed = true ∨ c.buf ≠ []) := by
  cases hb : c.buf <;> cases hc : c.closed <;> simp [chanRecv, hb, hc]

theorem Stop_of_onceDone (s : Server) (h : s.onceDone = true) :
    s.Stop = .ok s := by
  simp [Server.Stop, h]

theorem Stop_of_not_onceDone (s : Server) (h : s.onceDone = false)
    (hc : s.stopSignals.closed = false) :
    s.Stop = .ok { s with
      onceDone := true
      signalRegistered := false
      stopSignals := { s.stopSignals with closed := true }
      closeCount := s.closeCount + 1 } := by
  simp [Server.Stop, h, chanClose, hc]

/-- Full description of `Stop()` on a state satisfying the invariant:
no panic, the channel ends closed, the guard ends fired, the close ran
exactly once over the lifetime, and the engine, sink and drain trace
are untouched. -/
theorem Stop_spec (s : Server) (h : StopInv s) :
    ∃ s1, s.Stop = .ok s1 ∧ StopInv s1 ∧ s1.onceDone = true ∧
      s1.stopSignals.closed = true ∧ s1.closeCount = 1 ∧
      s1.log = s.log ∧ s1.drainCalls = s.drainCalls ∧ s1.origin = s.origin := by
  obtain ⟨h1, h2, h3⟩ := h
  cases hd : s.onceDone with
  | true =>
      refine ⟨s, Stop_of_onceDone s hd, ⟨h1, h2, h3⟩, hd, ?_, ?_, rfl, rfl, rfl⟩
      · rw [h1, hd]
      · rw [h2, hd]; rfl
  | false =>
      rw [hd] at h1 h2
      refine ⟨_, Stop_of_not_onceDone s hd h1, ⟨rfl, ?_, rfl⟩, rfl, rfl, ?_, rfl, rfl, rfl⟩
      · simp [h2]
      · simp [h2]

theorem logMessage_log_congr (t u : Server) (m : String) (h : t.log = u.log) :
    (logMessage t m).log = (logMessage u m).log := by
  cases hl : u.log <;> simp [logMessage, h, hl]

/-- The line `Shutdown()` logs about the drain outcome. -/
def drainLogLine : DrainResult → String
  | .done => "Server gracefully shut down."
  | .failed msg => "Server graceful shutdown failed: " ++ msg ++ "\n"

/-- Description of `Start()` on the failure path: the engine error is
logged, `Stop()` runs, and nothing is returned to the caller. -/
theorem Start_failure_spec (s : Server) (msg : String) (h : StopInv s) :
    ∃ s1, s.Start (.otherErr msg) = .ok s1 ∧ StopInv s1 ∧ s1.onceDone = true ∧
      s1.stopSignals.closed = true ∧ s1.closeCount = 1 ∧
      s1.drainCalls = s.drainCalls ∧ s1.origin = s.origin ∧
      s1.log = (logMessage (logMessage s ("Start listening @ " ++ s.origin.addr)) msg).log := by
  obtain ⟨s1, hstop, hinv, hdone, hcl, hcc, hlog, hdr, hor⟩ :=
    Stop_spec (logMessage (logMessage s ("Start listening @ " ++ s.origin.addr)) msg)
      (logMessage_StopInv _ msg (logMessage_StopInv s _ h))
  refine ⟨s1, ?_, hinv, hdone, hcl, hcc, ?_, ?_, hlog⟩
  · simp [Server.Start, hstop]
  · rw [hdr, logMessage_drainCalls, logMessage_drainCalls]
  · rw [hor, logMessage_origin, logMessage_origin]

/-- Unfolding of `Shutdown()` as the composite of logging, `Stop()`,
the recorded drain request and the outcome log line. -/
theorem Shutdown_eq (s : Server) (res : DrainResult) :
    s.Shutdown res =
      ((logMessage s "Shutdown server...").Stop).map (fun s2 =>
        logMessage
          { s2 with drainCalls := s2.drainCalls ++ [(gracefulTimeout, s2.stopSignals.closed)] }
          (drainLogLine res)) := by
  unfold Server.Shutdown
  cases hstop : (logMessage s "Shutdown server...").Stop <;>
    cases res <;> simp [Except.map, drainLogLine, hstop]

/-- Description of `Shutdown()` on a state satisfying the invariant:
no panic; `Stop()` has fired before the drain request, which is issued
with the fixed grace period and with the stop channel already closed;
the two log lines are written. -/
theorem Shutdown_spec (s : Server) (res : DrainResult) (h : StopInv s) :
    ∃ s1, s.Shutdown res = .ok s1 ∧ StopInv s1 ∧ s1.onceDone = true ∧
      s1.stopSignals.closed = true ∧ s1.closeCount = 1 ∧ s1.origin = s.origin ∧
      s1.drainCalls = s.drainCalls ++ [(gracefulTimeout, true)] ∧
      s1.log = (logMessage (logMessage s "Shutdown server...") (drainLogLine res)).log := by
  obtain ⟨s2, hstop, hinv2, hdone2, hcl2, hcc2, hlog2, hdr2, hor2⟩ :=
    Stop_spec (logMessage s "Shutdown server...") (logMessage_StopInv s _ h)
  refine ⟨logMessage
      { s2 with drainCalls := s2.drainCalls ++ [(gracefulTimeout, s2.stopSignals.closed)] }
      (drainLogLine res), ?_, ?_, ?_, ?_, ?_, ?_, ?_, ?_⟩
  · rw [Shutdown_eq, hstop]; rfl
  · exact logMessage_StopInv _ _ hinv2
  · rw [logMessage_onceDone]; exact hdone2
  · rw [logMessage_stopSignals]; exact hcl2
  · rw [logMessage_closeCount]; exact hcc2
  · rw [logMessage_origin]
    exact hor2.trans (logMessage_origin s _)
  · rw [logMessage_drainCalls]
    simp only [hcl2]
    rw [hdr2, logMessage_drainCalls]
  · exact logMessage_log_congr _ _ _ (hlog2.trans rfl)

/-- Every `Stop()`-reaching call succeeds without panic on an
invariant state and leaves the guard fired. -/
theorem runStopCaller_spec (c : StopCaller) (s : Server) (h : StopInv s) :
    ∃ s1, runStopCaller s c = .ok s1 ∧ StopInv s1 ∧ s1.onceDone = true := by
  cases c with
  | direct =>
      obtain ⟨s1, heq, hinv, hdone, _⟩ := Stop_spec s h
      exact ⟨s1, heq, hinv, hdone⟩
  | viaStartFailure msg =>
      obtain ⟨s1, heq, hinv, hdone, _⟩ := Start_failure_spec s msg h
      exact ⟨s1, heq, hinv, hdone⟩
  | viaShutdown res =>
      obtain ⟨s1, heq, hinv, hdone, _⟩ := Shutdown_spec s res h
      exact ⟨s1, heq, hinv, hdone⟩

/-- Any serialised sequence of `Stop()`-reaching calls succeeds and
fires the guard exactly when the sequence is non-empty. -/
theorem runStopCallers_spec (cs : List StopCaller) :
    ∀ s : Server, StopInv s →
      ∃ s1, runStopCallers s cs = .ok s1 ∧ StopInv s1 ∧
        s1.onceDone = (s.onceDone || !cs.isEmpty) := by
  induction cs with
  | nil => exact fun s h => ⟨s, rfl, h, by simp⟩
  | cons c cs ih =>
      intro s h
      obtain ⟨s1, heq1, hinv1, hdone1⟩ := runStopCaller_spec c s h
      obtain ⟨s2, heq2, hinv2, hdone2⟩ := ih s1 hinv1
      refine ⟨s2, ?_, hinv2, ?_⟩
      · simp [runStopCallers, heq1, heq2]
      · simp [hdone2, hdone1]

/-- `Stop()` acts on the non-log part of the state independently of
the attached sink. -/
theorem Stop_map_core_congr (s t : Server) (h : s.core = t.core) :
    (s.Stop).map Server.core = (t.Stop).map Server.core := by
  obtain ⟨o1, l1, ch1, d1, r1, n1, dr1⟩ := s
  obtain ⟨o2, l2, ch2, d2, r2, n2, dr2⟩ := t
  simp only [Server.core, ServerCore.mk.injEq] at h
  obtain ⟨h1, h2, h3, h4, h5, h6⟩ := h
  subst h1; subst h2; subst h3; subst h4; subst h5; subst h6
  cases d1 <;> cases hcl : ch1.closed <;>
    simp [Server.Stop, chanClose, hcl, Except.map, Server.core]

/-- `Start()` acts on the non-log part of the state independently of
the attached sink. -/
theorem Start_map_core_congr (s t : Server) (res : ListenResult) (h : s.core = t.core) :
    (s.Start res).map Server.core = (t.Start res).map Server.core := by
  cases res with
  | errServerClosed =>
      simp only [Server.Start, Except.map, logMessage_core, h]
  | otherErr msg =>
      simp only [Server.Start]
      exact Stop_map_core_congr _ _ (by
        rw [logMessage_core, logMessage_core, logMessage_core, logMessage_core, h])

/-- `Shutdown()` acts on the non-log part of the state independently
of the attached sink. -/
theorem Shutdown_map_core_congr (s t : Server) (res : DrainResult) (h : s.core = t.core) :
    (s.Shutdown res).map Server.core = (t.Shutdown res).map Server.core := by
  rw [Shutdown_eq, Shutdown_eq]
  have hstop := Stop_map_core_congr (logMessage s "Shutdown server...")
    (logMessage t "Shutdown server...") (by rw [logMessage_core, logMessage_core, h])
  cases hs1 : (logMessage s "Shutdown server...").Stop with
  | error p =>
      cases ht1 : (logMessage t "Shutdown server...").Stop with
      | error q => rw [hs1, ht1] at hstop; simpa [Except.map] using hstop
      | ok b => rw [hs1, ht1] at hstop; simp [Except.map] at hstop
  | ok a =>
      cases ht1 : (logMessage t "Shutdown server...").Stop with
      | error q => rw [hs1, ht1] at hstop; simp [Except.map] at hstop
      | ok b =>
          rw [hs1, ht1] at hstop
          simp only [Except.map, Except.ok.injEq] at hstop ⊢
          have e1 : a.origin = b.origin := congrArg ServerCore.origin hstop
          have e2 : a.stopSignals = b.stopSignals := congrArg ServerCore.stopSignals hstop
          have e3 : a.onceDone = b.onceDone := congrArg ServerCore.onceDone hstop
          have e4 : a.signalRegistered = b.signalRegistered :=
            congrArg ServerCore.signalRegistered hstop
          have e5 : a.closeCount = b.closeCount := congrArg ServerCore.closeCount hstop
          have e6 : a.drainCalls = b.drainCalls := congrArg ServerCore.drainCalls hstop
          rw [logMessage_core, logMessage_core]
          simp [Server.core, e1, e2, e3, e4, e5, e6]

theorem Wait_isSome_eq (s : Server) :
    (s.Wait).isSome = (chanRecv s.stopSignals).isSome := by
  cases h : chanRecv s.stopSignals with
  | none => simp [Server.Wait, h]
  | some p => cases p with
    | mk c v => simp [Server.Wait, h]

theorem logMessage_twice_log (s : Server) (L : List String) (a b : String)
    (h : s.log = some L) :
    (logMessage (logMessage s a) b).log = some (L ++ [a, b]) := by
  rw [logMessage_some s L a h, logMessage_some _ (L ++ [a]) b rfl]
  simp

/-- A controller constructed with a (so far empty) log sink. -/
def loggedServer : Server := New "127.0.0.1:8080" 0 [Log []]

/-! The claims. -/

/-- C1: for every serialised sequence of concurrent `Stop()`-reaching
calls (direct, from the failure path of `Start()`, or from
`Shutdown()`), starting from a controller whose once-guard has not
fired, no call panics (each returns `.ok`, and each is a total,
non-blocking function), the channel close runs exactly once when the
sequence is non-empty and never otherwise, the channel ends closed for
non-empty sequences, and every call after the guard has fired is a
no-op. -/
theorem stop_closes_exactly_once (s : Server) (cs : List StopCaller)
    (h : StopInv s) (h0 : s.onceDone = false) :
    ∃ s1, runStopCallers s cs = .ok s1 ∧
      s1.closeCount = (if cs.isEmpty then 0 else 1) ∧
      (cs.isEmpty = false → s1.stopSignals.closed = true) ∧
      (∀ t : Server, t.onceDone = true → t.Stop = .ok t) := by
  obtain ⟨s1, hrun, hinv, hdone⟩ := runStopCallers_spec cs s h
  refine ⟨s1, hrun, ?_, ?_, fun t ht => Stop_of_onceDone t ht⟩
  · rw [hinv.2.1, hdone, h0]
    cases cs.isEmpty <;> simp
  · intro hne
    rw [hinv.1, hdone, h0, hne]
    simp

theorem stop_closes_exactly_once_witness :
    (StopInv newTestServer ∧ newTestServer.onceDone = false) ∧
    (∃ s1, runStopCallers newTestServer
        [.direct, .direct, .viaShutdown .done] = .ok s1 ∧
      s1.closeCount =
        (if ([StopCaller.direct, .direct, .viaShutdown .done].isEmpty) then 0 else 1) ∧
      ([StopCaller.direct, .direct, .viaShutdown .done].isEmpty = false →
        s1.stopSignals.closed = true) ∧
      (∀ t : Server, t.onceDone = true → t.Stop = .ok t)) :=
  ⟨⟨by decide, by decide⟩,
    stop_closes_exactly_once newTestServer [.direct, .direct, .viaShutdown .done]
      (by decide) (by decide)⟩

/-- C2 counterexample: from a fresh controller, one delivered OS
interrupt is buffered in the capacity-1 channel, and `Wait()` then
unblocks although the stop channel has never been closed — so channel
closure is not the only mechanism that unblocks `Wait()`, refuting the
claim as stated. -/
theorem wait_unblocks_without_close_counterexample :
    deliverInterrupt newTestServer = .ok bufferedServer ∧
    (bufferedServer.Wait).isSome = true ∧
    bufferedServer.stopSignals.closed = false :=
  ⟨rfl, by decide, by decide⟩

/-- C2 (amended): `Wait()` suspends the caller and unblocks exactly
when the stop channel has been closed or holds a buffered interrupt
value; these are the only mechanisms that unblock it, and there is no
timeout. -/
theorem wait_unblocks_iff_closed_or_buffered (s : Server) :
    (s.Wait).isSome = true ↔
      (s.stopSignals.closed = true ∨ s.stopSignals.buf ≠ []) := by
  rw [Wait_isSome_eq, chanRecv_isSome_iff]

/-- C3: when the stop channel is already closed, `Wait()` completes
immediately instead of blocking. -/
theorem wait_immediate_when_closed (s : Server)
    (h : s.stopSignals.closed = true) :
    (s.Wait).isSome = true := by
  rw [Wait_isSome_eq]
  exact chanRecv_isSome_of_closed _ h

theorem wait_immediate_when_closed_witness :
    closedServer.stopSignals.closed = true ∧ (closedServer.Wait).isSome = true :=
  ⟨by decide, wait_immediate_when_closed closedServer (by decide)⟩

/-- C4: `Shutdown()` fires `Stop()` before the engine drain request —
the recorded drain call sees the stop channel already closed — and
after `Shutdown()` runs, no `Wait()` caller can remain blocked,
whatever triggered the shutdown and whatever the drain outcome. -/
theorem shutdown_stop_before_drain (s : Server) (res : DrainResult)
    (h : StopInv s) :
    ∃ s1, s.Shutdown res = .ok s1 ∧
      s1.drainCalls = s.drainCalls ++ [(gracefulTimeout, true)] ∧
      s1.stopSignals.closed = true ∧
      (s1.Wait).isSome = true := by
  obtain ⟨s1, heq, hinv, hdone, hcl, hcc, hor, hdr, hlog⟩ := Shutdown_spec s res h
  refine ⟨s1, heq, hdr, hcl, ?_⟩
  rw [Wait_isSome_eq]
  exact chanRecv_isSome_of_closed _ hcl

theorem shutdown_stop_before_drain_witness :
    StopInv newTestServer ∧
    (∃ s1, newTestServer.Shutdown .done = .ok s1 ∧
      s1.drainCalls = newTestServer.drainCalls ++ [(gracefulTimeout, true)] ∧
      s1.stopSignals.closed = true ∧
      (s1.Wait).isSome = true) :=
  ⟨by decide, shutdown_stop_before_drain newTestServer .done (by decide)⟩

/-- C5: when the serving loop ends with `http.ErrServerClosed`,
`Start()` logs the closure and returns without touching the stop
machinery; on any other error it logs the error and fires `Stop()` so
that `Wait()` callers unblock; in both cases `Start()` completes
normally and propagates no error value — only log lines report the
outcome. -/
theorem start_error_handling (s : Server) (L : List String)
    (h : StopInv s) (hlog : s.log = some L) :
    (∃ s1, s.Start .errServerClosed = .ok s1 ∧
      s1.stopSignals = s.stopSignals ∧ s1.onceDone = s.onceDone ∧
      s1.closeCount = s.closeCount ∧
      s1.log = some (L ++ ["Start listening @ " ++ s.origin.addr, "Server closed."])) ∧
    (∀ msg, ∃ s1, s.Start (.otherErr msg) = .ok s1 ∧
      s1.stopSignals.closed = true ∧ s1.closeCount = 1 ∧
      (s1.Wait).isSome = true ∧
      s1.log = some (L ++ ["Start listening @ " ++ s.origin.addr, msg])) := by
  constructor
  · refine ⟨_, rfl, ?_, ?_, ?_, ?_⟩
    · rw [logMessage_stopSignals, logMessage_stopSignals]
    · rw [logMessage_onceDone, logMessage_onceDone]
    · rw [logMessage_closeCount, logMessage_closeCount]
    · exact logMessage_twice_log s L _ _ hlog
  · intro msg
    obtain ⟨s1, heq, hinv1, hdone1, hcl1, hcc1, hdr1, hor1, hlog1⟩ :=
      Start_failure_spec s msg h
    refine ⟨s1, heq, hcl1, hcc1, ?_, ?_⟩
    · rw [Wait_isSome_eq]
      exact chanRecv_isSome_of_closed _ hcl1
    · rw [hlog1]
      exact logMessage_twice_log s L _ _ hlog

theorem start_error_handling_witness :
    (StopInv loggedServer ∧ loggedServer.log = some []) ∧
    ((∃ s1, loggedServer.Start .errServerClosed = .ok s1 ∧
      s1.stopSignals = loggedServer.stopSignals ∧
      s1.onceDone = loggedServer.onceDone ∧
      s1.closeCount = loggedServer.closeCount ∧
      s1.log = some ([] ++ ["Start listening @ " ++ loggedServer.origin.addr,
        "Server closed."])) ∧
    (∀ msg, ∃ s1, loggedServer.Start (.otherErr msg) = .ok s1 ∧
      s1.stopSignals.closed = true ∧ s1.closeCount = 1 ∧
      (s1.Wait).isSome = true ∧
      s1.log = some ([] ++ ["Start listening @ " ++ loggedServer.origin.addr, msg]))) :=
  ⟨⟨by decide, by decide⟩, start_error_handling loggedServer [] (by decide) (by decide)⟩

/-- C6: `Shutdown()` returns no error value to its caller (its result
carries only the state): when the engine drain fails it completes
normally having logged a failed graceful shutdown, and on success it
completes normally having logged a successful graceful shutdown. -/
theorem shutdown_reports_via_log_only (s : Server) (L : List String)
    (h : StopInv s) (hlog : s.log = some L) :
    (∀ msg, ∃ s1, s.Shutdown (.failed msg) = .ok s1 ∧
      s1.log = some (L ++ ["Shutdown server...",
        "Server graceful shutdown failed: " ++ msg ++ "\n"])) ∧
    (∃ s1, s.Shutdown .done = .ok s1 ∧
      s1.log = some (L ++ ["Shutdown server...", "Server gracefully shut down."])) := by
  constructor
  · intro msg
    obtain ⟨s1, heq, _, _, _, _, _, _, hlog1⟩ := Shutdown_spec s (.failed msg) h
    refine ⟨s1, heq, ?_⟩
    rw [hlog1]
    exact logMessage_twice_log s L _ _ hlog
  · obtain ⟨s1, heq, _, _, _, _, _, _, hlog1⟩ := Shutdown_spec s .done h
    refine ⟨s1, heq, ?_⟩
    rw [hlog1]
    exact logMessage_twice_log s L _ _ hlog

theorem shutdown_reports_via_log_only_witness :
    (StopInv loggedServer ∧ loggedServer.log = some []) ∧
    ((∀ msg, ∃ s1, loggedServer.Shutdown (.failed msg) = .ok s1 ∧
      s1.log = some ([] ++ ["Shutdown server...",
        "Server graceful shutdown failed: " ++ msg ++ "\n"])) ∧
    (∃ s1, loggedServer.Shutdown .done = .ok s1 ∧
      s1.log = some ([] ++ ["Shutdown server...", "Server gracefully shut down."]))) :=
  ⟨⟨by decide, by decide⟩,
    shutdown_reports_via_log_only loggedServer [] (by decide) (by decide)⟩

/-- C7: the grace period granted to the engine drain is the fixed
constant `gracefulTimeout = 10` seconds, and every `Shutdown()`
invocation records exactly this timeout on its drain request; nothing
in the state or the options can change it. -/
theorem shutdown_grace_period_fixed (s : Server) (res : DrainResult)
    (h : StopInv s) :
    gracefulTimeout = 10 ∧
    ∃ s1, s.Shutdown res = .ok s1 ∧
      s1.drainCalls.map Prod.fst = s.drainCalls.map Prod.fst ++ [gracefulTimeout] := by
  obtain ⟨s1, heq, _, _, _, _, _, hdr, _⟩ := Shutdown_spec s res h
  refine ⟨rfl, s1, heq, ?_⟩
  rw [hdr]
  simp

theorem shutdown_grace_period_fixed_witness :
    StopInv newTestServer ∧
    (gracefulTimeout = 10 ∧
    ∃ s1, newTestServer.Shutdown .done = .ok s1 ∧
      s1.drainCalls.map Prod.fst =
        newTestServer.drainCalls.map Prod.fst ++ [gracefulTimeout]) :=
  ⟨by decide, shutdown_grace_period_fixed newTestServer .done (by decide)⟩

/-- C8: with no sink attached, `logMessage` is a no-op and construction
attaches no sink unless an option does; `Start()`, `Stop()` and
`Shutdown()` act on the non-log part of the state exactly as they do
with a sink attached, succeeding or panicking identically — no
operation fails for lack of a sink. -/
theorem no_sink_logging_noop (s : Server) (m : String) (L : List String)
    (h : s.log = none) :
    logMessage s m = s ∧
    (New s.origin.addr s.origin.handlerId []).log = none ∧
    (∀ res, (s.Start res).map Server.core =
      (({ s with log := some L }).Start res).map Server.core) ∧
    ((s.Stop).map Server.core = (({ s with log := some L }).Stop).map Server.core) ∧
    (∀ res, (s.Shutdown res).map Server.core =
      (({ s with log := some L }).Shutdown res).map Server.core) := by
  have hcore : s.core = ({ s with log := some L } : Server).core := rfl
  exact ⟨logMessage_none s m h, rfl,
    fun res => Start_map_core_congr _ _ res hcore,
    Stop_map_core_congr _ _ hcore,
    fun res => Shutdown_map_core_congr _ _ res hcore⟩

theorem no_sink_logging_noop_witness :
    newTestServer.log = none ∧
    (logMessage newTestServer "Shutdown server..." = newTestServer ∧
    (New newTestServer.origin.addr newTestServer.origin.handlerId []).log = none ∧
    (∀ res, (newTestServer.Start res).map Server.core =
      (({ newTestServer with log := some [] }).Start res).map Server.core) ∧
    ((newTestServer.Stop).map Server.core =
      (({ newTestServer with log := some [] }).Stop).map Server.core) ∧
    (∀ res, (newTestServer.Shutdown res).map Server.core =
      (({ newTestServer with log := some [] }).Shutdown res).map Server.core)) :=
  ⟨by decide, no_sink_logging_noop newTestServer "Shutdown server..." [] (by decide)⟩

/-- C9: for every address, handler and option list, `New` produces
exactly the controller `Wrap` produces from an engine pre-configured
with that address and handler: the same fresh open capacity-1 stop
channel with interrupt interest registered, the same options applied
in order, and no serving action (construction is a pure state
producer in this embedding — no `ListenAndServe` occurs). -/
theorem wrap_new_equivalent (addr : String) (handlerId : Nat)
    (opts : List ServerOption) :
    New addr handlerId opts = Wrap ⟨addr, handlerId⟩ opts ∧
    (New addr handlerId []).stopSignals = freshChan ∧
    (New addr handlerId []).signalRegistered = true ∧
    chanCapacity = 1 :=
  ⟨rfl, rfl, rfl, rfl⟩

/-- C10: with one interrupt value buffered and the once-guard not
fired, the first `Wait()` consumes the value and unblocks while the
channel stays open and becomes empty; a further `Wait()` on the
resulting state blocks; once `Stop()` closes the channel, `Wait()`
unblocks again. -/
theorem buffered_signal_single_wait (s : Server)
    (hbuf : s.stopSignals = ⟨false, [()]⟩) (h0 : s.onceDone = false) :
    ∃ s1, s.Wait = some s1 ∧
      s1.stopSignals.closed = false ∧ s1.stopSignals.buf = [] ∧
      s1.Wait = none ∧
      ∃ s2, s1.Stop = .ok s2 ∧ (s2.Wait).isSome = true := by
  refine ⟨{ s with stopSignals := ⟨false, []⟩ }, ?_, rfl, rfl, ?_, ?_⟩
  · simp [Server.Wait, hbuf, chanRecv]
  · simp [Server.Wait, chanRecv]
  · refine ⟨_, Stop_of_not_onceDone _ h0 rfl, ?_⟩
    rw [Wait_isSome_eq]
    exact chanRecv_isSome_of_closed _ rfl

theorem buffered_signal_single_wait_witness :
    (bufferedServer.stopSignals = ⟨false, [()]⟩ ∧ bufferedServer.onceDone = false) ∧
    (∃ s1, bufferedServer.Wait = some s1 ∧
      s1.stopSignals.closed = false ∧ s1.stopSignals.buf = [] ∧
      s1.Wait = none ∧
      ∃ s2, s1.Stop = .ok s2 ∧ (s2.Wait).isSome = true) :=
  ⟨⟨by decide, by decide⟩,
    buffered_signal_single_wait bufferedServer (by decide) (by decide)⟩

end GracefulServer
